import Mathlib

/-!
Verification of the Bhashini pipeline backend (`backend/main.py`).

The Python source is shallowly embedded: every remote HTTP call is replaced by
an oracle value or oracle function describing the response the remote side
would give, bytes are `List Nat` (each entry `< 256`), JSON values are a small
inductive type, and Python exceptions are an explicit `PyError` sum threaded
through `Except`.  The pipeline coordinators additionally produce an event
trace recording, in order, the remote calls they perform and the lifecycle of
the temporary audio file, so that call-order and resource-lifecycle properties
can be stated.
-/

namespace Bhashini

/-- JSON values, as needed to model the provider response bodies. -/
inductive Json where
  | str : String → Json
  | num : Int → Json
  | arr : List Json → Json
  | obj : List (String × Json) → Json

/-- Python exceptions that the embedded code can raise.
`httpException` models FastAPI `HTTPException(status_code, detail)`;
`httpStatusError` models `httpx.Response.raise_for_status`;
`keyError`, `typeError` and `indexError` model the corresponding built-in
Python exceptions raised by subscripting; `fileNotFoundError` models
`Path.unlink` on a missing file when `missing_ok=False`. -/
inductive PyError where
  | httpException : Nat → String → PyError
  | httpStatusError : Nat → PyError
  | keyError : String → PyError
  | typeError : PyError
  | indexError : PyError
  | fileNotFoundError : PyError

/-- Python `str(e)` as used when interpolating the caught exception into the
`"ASR parse error: ..."` detail string. -/
def pyErrStr : PyError → String
  | PyError.httpException s d => "HTTPException " ++ toString s ++ ": " ++ d
  | PyError.httpStatusError s => "HTTPStatusError " ++ toString s
  | PyError.keyError k => "KeyError: " ++ k
  | PyError.typeError => "TypeError"
  | PyError.indexError => "IndexError"
  | PyError.fileNotFoundError => "FileNotFoundError"

/-- Python `d[k]` on a (modelled) JSON value: a `KeyError` when the key is
absent, a `TypeError` when the value is not an object. -/
def Json.getKey : Json → String → Except PyError Json
  | Json.obj fields, k =>
    match fields.lookup k with
    | some v => Except.ok v
    | none => Except.error (PyError.keyError k)
  | _, _ => Except.error PyError.typeError

/-- Python `l[i]` on a (modelled) JSON value: an `IndexError` when the index is
out of range, a `TypeError` when the value is not an array. -/
def Json.getIdx : Json → Nat → Except PyError Json
  | Json.arr xs, i =>
    match xs[i]? with
    | some v => Except.ok v
    | none => Except.error PyError.indexError
  | _, _ => Except.error PyError.typeError

/-- Dynamic typing at the transcript boundary: Python passes the value
extracted from the ASR response directly on as the "text"; in the typed
embedding non-string shapes are rendered to a placeholder string.  Only the
`str` case is ever semantically relevant. -/
def Json.asText : Json → String
  | Json.str s => s
  | Json.num n => toString n
  | Json.arr _ => "<list>"
  | Json.obj _ => "<dict>"

/-- The standard base64 alphabet, in index order. -/
def b64alpha : List Char :=
  ['A', 'B', 'C', 'D', 'E', 'F', 'G', 'H', 'I', 'J', 'K', 'L', 'M',
   'N', 'O', 'P', 'Q', 'R', 'S', 'T', 'U', 'V', 'W', 'X', 'Y', 'Z',
   'a', 'b', 'c', 'd', 'e', 'f', 'g', 'h', 'i', 'j', 'k', 'l', 'm',
   'n', 'o', 'p', 'q', 'r', 's', 't', 'u', 'v', 'w', 'x', 'y', 'z',
   '0', '1', '2', '3', '4', '5', '6', '7', '8', '9', '+', '/']

/-- The base64 digit with the given 6-bit value. -/
def b64char (n : Nat) : Char := b64alpha.getD n '?'

/-- `base64.b64encode` on a byte sequence (standard alphabet, with `=`
padding), producing the character sequence of the resulting ASCII text. -/
def b64encode : List Nat → List Char
  | [] => []
  | [a] =>
    [b64char (a / 4), b64char (a % 4 * 16), '=', '=']
  | [a, b] =>
    [b64char (a / 4), b64char (a % 4 * 16 + b / 16), b64char (b % 16 * 4), '=']
  | a :: b :: c :: rest =>
    b64char (a / 4) :: b64char (a % 4 * 16 + b / 16) ::
      b64char (b % 16 * 4 + c / 64) :: b64char (c % 64) :: b64encode rest

/-- Value of a base64 digit, `none` for characters outside the alphabet. -/
def b64val (c : Char) : Option Nat :=
  let i := b64alpha.indexOf c
  if i < 64 then some i else none

/-- Standard base64 decoding, `none` on malformed input. -/
def b64decode : List Char → Option (List Nat)
  | [] => some []
  | c1 :: c2 :: c3 :: c4 :: rest =>
    match b64val c1, b64val c2 with
    | some s1, some s2 =>
      if c3 = '=' then
        if c4 = '=' ∧ rest = [] then some [s1 * 4 + s2 / 16] else none
      else
        match b64val c3 with
        | some s3 =>
          if c4 = '=' then
            if rest = [] then some [s1 * 4 + s2 / 16, s2 % 16 * 16 + s3 / 4]
            else none
          else
            match b64val c4 with
            | some s4 =>
              match b64decode rest with
              | some tl =>
                some ((s1 * 4 + s2 / 16) :: (s2 % 16 * 16 + s3 / 4) ::
                  (s3 % 4 * 64 + s4) :: tl)
              | none => none
            | none => none
        | none => none
    | _, _ => none
  | _ => none

/-- Response of the translation endpoint as far as the code consumes it:
`status_code` and `text` (the decoded body). -/
structure TranslateResponse where
  status : Nat
  text : String

/-- Response of the TTS endpoint: `status_code`, `text` (used only in the
error message) and `content` (the raw body bytes). -/
structure TtsResponse where
  status : Nat
  text : String
  content : List Nat

/-- Response of a JSON endpoint (pipeline-config discovery and ASR
inference): `status_code` and the parsed JSON body. -/
structure JsonResponse where
  status : Nat
  body : Json

/-- The ASR inference request body built in `bhashini_asr`, flattened to the
fields the code fills in: one `pipelineTasks` entry with its `config`, and the
single `inputData.audio[0].audioContent` entry. -/
structure AsrPayload where
  taskType : String
  sourceLanguage : String
  serviceId : Json
  audioFormat : String
  samplingRate : Nat
  audioContent : String

/-- The config block of the ASR inference request, exactly as the source
constructs it. -/
def asr_inference_payload (lang : String) (svcId : Json) (audio_b64 : String) :
    AsrPayload :=
  { taskType := "asr"
    sourceLanguage := lang
    serviceId := svcId
    audioFormat := "wav"
    samplingRate := 16000
    audioContent := audio_b64 }

/-- `httpx.Response.is_success`, the condition `raise_for_status` requires. -/
def httpSuccess (status : Nat) : Bool := decide (200 ≤ status ∧ status < 300)

/-- Events recorded by the traced pipeline: remote calls in the order they are
issued, and the temporary audio file lifecycle. -/
inductive Event where
  | translateCall : String → String → String → Event
  | ttsCall : String → String → Event
  | asrConfigCall : Event
  | asrInferCall : AsrPayload → Event
  | tempCreate : String → Event
  | tempRelease : Event

/-- Discriminates the temporary-file lifecycle events. -/
def isTempEvent : Event → Bool
  | Event.tempCreate _ => true
  | Event.tempRelease => true
  | _ => false

/-- The translation calls of a trace, in order, as (text, source, target). -/
def translateCalls (evs : List Event) : List (String × String × String) :=
  evs.filterMap fun e =>
    match e with
    | Event.translateCall t s g => some (t, s, g)
    | _ => none

/-- The environment of one request: what the remote endpoints would answer.
`translate` maps the (inputText, inputLanguage, outputLanguage) triple of the
request body to the response; `tts` maps (text, language); `asrConfig` is the
discovery response; `asrInfer` maps the resolved callback URL, credential name
and value, and the inference payload to the response. -/
structure Oracles where
  translate : String → String → String → TranslateResponse
  tts : String → String → TtsResponse
  asrConfig : JsonResponse
  asrInfer : Json → Json → Json → AsrPayload → JsonResponse

/-- `bhashini_translate` (main.py lines 95-105): POST the text with the given
language pair; non-200 raises `HTTPException(status, "Translate failed: " +
body)`, otherwise the stripped raw body is the translated text. -/
def bhashini_translate (resp : TranslateResponse) : Except PyError String :=
  if resp.status ≠ 200 then
    Except.error (PyError.httpException resp.status ("Translate failed: " ++ resp.text))
  else
    Except.ok resp.text.trim

/-- `bhashini_tts` (main.py lines 108-114): POST the text; non-200 raises
`HTTPException(status, "TTS failed: " + body)`, otherwise the raw body bytes
are the audio. -/
def bhashini_tts (resp : TtsResponse) : Except PyError (List Nat) :=
  if resp.status ≠ 200 then
    Except.error (PyError.httpException resp.status ("TTS failed: " ++ resp.text))
  else
    Except.ok resp.content

/-- The `resp.json()["pipelineResponse"][0]["output"]` extraction guarded by
`try` in `bhashini_asr`. -/
def asrParseOutput (body : Json) : Except PyError Json :=
  Json.getKey body "pipelineResponse" >>= (fun j => j.getIdx 0) >>=
    (fun j => j.getKey "output")

/-- `bhashini_asr` (main.py lines 117-158): discovery call (`raise_for_status`
on non-2xx, then unguarded subscripting of the nested config), base64-encoding
of the audio file contents, inference call with the constructed payload
(`raise_for_status`, then the guarded output extraction that any failure turns
into `HTTPException(500, "ASR parse error: " + str(e))`).  Returns the result
together with the trace of the remote calls made. -/
def bhashini_asr (cfg : JsonResponse)
    (infer : Json → Json → Json → AsrPayload → JsonResponse)
    (wavBytes : List Nat) (lang : String) :
    Except PyError Json × List Event :=
  if httpSuccess cfg.status then
    match Json.getKey cfg.body "pipelineInferenceAPIEndPoint" >>=
        (fun j => j.getKey "callbackUrl") with
    | Except.error e => (Except.error e, [Event.asrConfigCall])
    | Except.ok inf_url =>
      match Json.getKey cfg.body "pipelineInferenceAPIEndPoint" >>=
          (fun j => j.getKey "serviceId") with
      | Except.error e => (Except.error e, [Event.asrConfigCall])
      | Except.ok svc_id =>
        match Json.getKey cfg.body "pipelineInferenceAPIEndPoint" >>=
            (fun j => j.getKey "inferenceApiKey" >>= (fun k => k.getKey "name")) with
        | Except.error e => (Except.error e, [Event.asrConfigCall])
        | Except.ok key_name =>
          match Json.getKey cfg.body "pipelineInferenceAPIEndPoint" >>=
              (fun j => j.getKey "inferenceApiKey" >>= (fun k => k.getKey "value")) with
          | Except.error e => (Except.error e, [Event.asrConfigCall])
          | Except.ok key_val =>
            let audio_b64 := String.mk (b64encode wavBytes)
            let payload := asr_inference_payload lang svc_id audio_b64
            let resp := infer inf_url key_name key_val payload
            if httpSuccess resp.status then
              match asrParseOutput resp.body with
              | Except.ok out =>
                (Except.ok out, [Event.asrConfigCall, Event.asrInferCall payload])
              | Except.error e =>
                (Except.error (PyError.httpException 500
                    ("ASR parse error: " ++ pyErrStr e)),
                 [Event.asrConfigCall, Event.asrInferCall payload])
            else
              (Except.error (PyError.httpStatusError resp.status),
               [Event.asrConfigCall, Event.asrInferCall payload])
  else (Except.error (PyError.httpStatusError cfg.status), [Event.asrConfigCall])

/-- The result record (`BackendResponse` pydantic model, main.py lines 85-89). -/
structure BackendResponse where
  original_text : String
  translated_text : String
  final_text : String
  audio_base64 : String

/-- The pivot language constant the coordinator passes as the forward target
and reverse source; the source inlines the literal `"English"`. -/
def PIVOT : String := "English"

/-- `process_text_pipeline` (main.py lines 161-173): forward translation to
the pivot, reverse translation back, TTS of the final text, then the assembled
`BackendResponse` with `audio_base64 = base64.b64encode(audio_bytes).decode()`.
Any stage error propagates immediately.  The second component is the trace of
remote calls, in order. -/
def process_text_pipeline (o : Oracles) (text lang : String) :
    Except PyError BackendResponse × List Event :=
  match bhashini_translate (o.translate text lang PIVOT) with
  | Except.error e => (Except.error e, [Event.translateCall text lang PIVOT])
  | Except.ok translated =>
    match bhashini_translate (o.translate translated PIVOT lang) with
    | Except.error e =>
      (Except.error e,
       [Event.translateCall text lang PIVOT,
        Event.translateCall translated PIVOT lang])
    | Except.ok final_text =>
      match bhashini_tts (o.tts final_text lang) with
      | Except.error e =>
        (Except.error e,
         [Event.translateCall text lang PIVOT,
          Event.translateCall translated PIVOT lang,
          Event.ttsCall final_text lang])
      | Except.ok audio_bytes =>
        (Except.ok
          { original_text := text
            translated_text := translated
            final_text := final_text
            audio_base64 := String.mk (b64encode audio_bytes) },
         [Event.translateCall text lang PIVOT,
          Event.translateCall translated PIVOT lang,
          Event.ttsCall final_text lang])

/-- The uploaded file as the audio entry point consumes it: the client-supplied
`filename` (optional) and the bytes `await file.read()` yields. -/
structure UploadedFile where
  filename : Option String
  content : List Nat

/-- `pathlib.PurePath.suffix`: the extension of the final path component —
`name[i:]` for the last dot position `i` when `0 < i < len(name) - 1`,
otherwise the empty string. -/
def pathSuffix (p : String) : String :=
  let name := (p.splitOn "/").getLastD ""
  let cs := name.toList
  let dotIdxs := (List.range cs.length).filter fun i => cs.getD i ' ' = '.'
  match dotIdxs.getLast? with
  | none => ""
  | some i => if 0 < i ∧ i + 1 < cs.length then String.mk (cs.drop i) else ""

/-- `Path.unlink(missing_ok=...)`: deleting an absent file raises
`FileNotFoundError` unless `missing_ok` is set. -/
def unlink (fileExists missingOk : Bool) : Except PyError Unit :=
  if fileExists then Except.ok ()
  else if missingOk then Except.ok ()
  else Except.error PyError.fileNotFoundError

/-- The `try` block of `process_audio_pipeline` (main.py lines 181-183):
transcribe the temp file, then delegate to the text pipeline on the
transcription result. -/
def process_audio_try_body (o : Oracles) (file : UploadedFile) (lang : String) :
    Except PyError BackendResponse × List Event :=
  match bhashini_asr o.asrConfig o.asrInfer file.content lang with
  | (Except.error e, evs) => (Except.error e, evs)
  | (Except.ok stt_text, evs) =>
    let r := process_text_pipeline o (Json.asText stt_text) lang
    (r.1, evs ++ r.2)

/-- `process_audio_pipeline` (main.py lines 176-185): compute the temp-file
suffix from the filename (`Path(file.filename or "audio").suffix or ".wav"`),
create the temp file and write the upload into it, run the try body, and in
the `finally` clause call `tmp_path.unlink(missing_ok=True)`; the temp file
still exists at that point, so `unlink true true` models the cleanup call.
The trace records creation before the ASR call and the unconditional release
at the end. -/
def process_audio_pipeline (o : Oracles) (file : UploadedFile) (lang : String) :
    Except PyError BackendResponse × List Event :=
  let fname := match file.filename with
    | none => "audio"
    | some s => if s = "" then "audio" else s
  let sfx0 := pathSuffix fname
  let sfx := if sfx0 = "" then ".wav" else sfx0
  let body := process_audio_try_body o file lang
  match unlink true true with
  | Except.ok _ => (body.1, Event.tempCreate sfx :: (body.2 ++ [Event.tempRelease]))
  | Except.error e =>
    (Except.error e, Event.tempCreate sfx :: (body.2 ++ [Event.tempRelease]))

/-- Whether a JSON value is a plain (scalar) string. -/
def Json.isScalarStr : Json → Bool
  | Json.str _ => true
  | _ => false

/-- A fully-populated discovery response, as the provider documents it. -/
def cfgResolved : JsonResponse :=
  { status := 200
    body := Json.obj [("pipelineInferenceAPIEndPoint", Json.obj
      [("callbackUrl", Json.str "https://cb"),
       ("serviceId", Json.str "svc"),
       ("inferenceApiKey", Json.obj
         [("name", Json.str "key"), ("value", Json.str "val")])])] }

/-- A discovery response that is well-formed except that `serviceId` is
missing from `pipelineInferenceAPIEndPoint`. -/
def cfgMissingServiceId : JsonResponse :=
  { status := 200
    body := Json.obj [("pipelineInferenceAPIEndPoint", Json.obj
      [("callbackUrl", Json.str "https://cb"),
       ("inferenceApiKey", Json.obj
         [("name", Json.str "key"), ("value", Json.str "val")])])] }

/-- An inference endpoint whose `pipelineResponse[0].output` is the
object-with-`source` provider variant rather than a plain string. -/
def inferObjOutput : Json → Json → Json → AsrPayload → JsonResponse :=
  fun _ _ _ _ =>
    { status := 200
      body := Json.obj [("pipelineResponse", Json.arr
        [Json.obj [("output", Json.obj [("source", Json.str "hello")])]])] }

/-- An inference endpoint answering 200 with a body missing the expected
`pipelineResponse` path. -/
def inferMissingOutput : Json → Json → Json → AsrPayload → JsonResponse :=
  fun _ _ _ _ => { status := 200, body := Json.obj [] }

/-- An inference endpoint whose output is a plain transcript string. -/
def inferStrOutput : Json → Json → Json → AsrPayload → JsonResponse :=
  fun _ _ _ _ =>
    { status := 200
      body := Json.obj [("pipelineResponse", Json.arr
        [Json.obj [("output", Json.str "hi")]])] }

/-- A request environment in which every stage succeeds. -/
def oracleW : Oracles :=
  { translate := fun _ _ _ => { status := 200, text := "ok" }
    tts := fun _ _ => { status := 200, text := "", content := [104, 105] }
    asrConfig := cfgResolved
    asrInfer := inferStrOutput }

/-- A request environment whose translation endpoint is down. -/
def oracleFail : Oracles :=
  { translate := fun _ _ _ => { status := 503, text := "down" }
    tts := fun _ _ => { status := 200, text := "", content := [] }
    asrConfig := cfgResolved
    asrInfer := inferStrOutput }

/-- The result `oracleW` produces on text input `"hi"` with language `"hi"`. -/
def resultW : BackendResponse :=
  { original_text := "hi"
    translated_text := ("ok").trim
    final_text := ("ok").trim
    audio_base64 := String.mk (b64encode [104, 105]) }

/-- An uploaded audio file. -/
def fileW : UploadedFile := { filename := some "x.mp3", content := [1] }

theorem b64val_b64char : ∀ i : Fin 64, b64val (b64char i.val) = some i.val := by
  decide

theorem b64char_ne_pad : ∀ i : Fin 64, ¬ b64char i.val = '=' := by
  decide

/-- Decoding inverts encoding on genuine byte sequences. -/
theorem b64decode_b64encode :
    ∀ l : List Nat, (∀ b ∈ l, b < 256) → b64decode (b64encode l) = some l
  | [] => fun _ => rfl
  | [a] => fun h => by
    have ha : a < 256 := h a (by simp)
    have h1 : b64val (b64char (a / 4)) = some (a / 4) :=
      b64val_b64char ⟨a / 4, by omega⟩
    have h2 : b64val (b64char (a % 4 * 16)) = some (a % 4 * 16) :=
      b64val_b64char ⟨a % 4 * 16, by omega⟩
    simp [b64encode, b64decode, h1, h2]
    omega
  | [a, b] => fun h => by
    have ha : a < 256 := h a (by simp)
    have hb : b < 256 := h b (by simp)
    have h1 : b64val (b64char (a / 4)) = some (a / 4) :=
      b64val_b64char ⟨a / 4, by omega⟩
    have h2 : b64val (b64char (a % 4 * 16 + b / 16)) = some (a % 4 * 16 + b / 16) :=
      b64val_b64char ⟨a % 4 * 16 + b / 16, by omega⟩
    have h3 : b64val (b64char (b % 16 * 4)) = some (b % 16 * 4) :=
      b64val_b64char ⟨b % 16 * 4, by omega⟩
    have hne : ¬ b64char (b % 16 * 4) = '=' :=
      b64char_ne_pad ⟨b % 16 * 4, by omega⟩
    simp [b64encode, b64decode, h1, h2, h3, hne]
    omega
  | a :: b :: c :: rest => fun h => by
    have ha : a < 256 := h a (by simp)
    have hb : b < 256 := h b (by simp)
    have hc : c < 256 := h c (by simp)
    have ih := b64decode_b64encode rest (fun x hx => h x (by simp [hx]))
    have h1 : b64val (b64char (a / 4)) = some (a / 4) :=
      b64val_b64char ⟨a / 4, by omega⟩
    have h2 : b64val (b64char (a % 4 * 16 + b / 16)) = some (a % 4 * 16 + b / 16) :=
      b64val_b64char ⟨a % 4 * 16 + b / 16, by omega⟩
    have h3 : b64val (b64char (b % 16 * 4 + c / 64)) = some (b % 16 * 4 + c / 64) :=
      b64val_b64char ⟨b % 16 * 4 + c / 64, by omega⟩
    have h4 : b64val (b64char (c % 64)) = some (c % 64) :=
      b64val_b64char ⟨c % 64, by omega⟩
    have hne3 : ¬ b64char (b % 16 * 4 + c / 64) = '=' :=
      b64char_ne_pad ⟨b % 16 * 4 + c / 64, by omega⟩
    have hne4 : ¬ b64char (c % 64) = '=' :=
      b64char_ne_pad ⟨c % 64, by omega⟩
    match rest with
    | [] =>
      simp [b64encode, b64decode, h1, h2, h3, h4, hne3, hne4] at ih ⊢
      omega
    | r :: rs =>
      simp only [b64encode, b64decode, h1, h2, h3, h4, hne3, hne4, if_neg,
        ite_false, ih]
      simp [hne3, hne4, ih]
      omega

/-- The transcriber makes no temporary-file lifecycle events of its own. -/
theorem bhashini_asr_trace_no_temp (cfg : JsonResponse)
    (infer : Json → Json → Json → AsrPayload → JsonResponse)
    (bytes : List Nat) (lang : String) :
    ((bhashini_asr cfg infer bytes lang).2).countP isTempEvent = 0 := by
  unfold bhashini_asr
  repeat' (first | rfl | split | dsimp only)

/-- The text pipeline makes no temporary-file lifecycle events. -/
theorem process_text_trace_no_temp (o : Oracles) (text lang : String) :
    ((process_text_pipeline o text lang).2).countP isTempEvent = 0 := by
  unfold process_text_pipeline
  repeat' (first | rfl | split)

/-- Inversion: a successful text-pipeline run determines each stage result and
each field of the returned record. -/
theorem process_text_pipeline_ok_inv (o : Oracles) (text lang : String)
    (r : BackendResponse)
    (hok : (process_text_pipeline o text lang).1 = Except.ok r) :
    ∃ t1 f1,
      bhashini_translate (o.translate text lang PIVOT) = Except.ok t1 ∧
      bhashini_translate (o.translate t1 PIVOT lang) = Except.ok f1 ∧
      bhashini_tts (o.tts f1 lang) = Except.ok ((o.tts f1 lang).content) ∧
      r = { original_text := text, translated_text := t1, final_text := f1,
            audio_base64 := String.mk (b64encode ((o.tts f1 lang).content)) } := by
  unfold process_text_pipeline at hok
  cases hA : bhashini_translate (o.translate text lang PIVOT) with
  | error e => rw [hA] at hok; simp at hok
  | ok t1 =>
    rw [hA] at hok
    dsimp only at hok
    cases hB : bhashini_translate (o.translate t1 PIVOT lang) with
    | error e => rw [hB] at hok; simp at hok
    | ok f1 =>
      rw [hB] at hok
      dsimp only at hok
      cases hC : bhashini_tts (o.tts f1 lang) with
      | error e => rw [hC] at hok; simp at hok
      | ok B =>
        rw [hC] at hok
        dsimp only at hok
        have hBc : B = (o.tts f1 lang).content := by
          unfold bhashini_tts at hC
          by_cases hs : (o.tts f1 lang).status ≠ 200
          · rw [if_pos hs] at hC; simp at hC
          · rw [if_neg hs] at hC
            injection hC with h
            exact h.symm
        subst hBc
        refine ⟨t1, f1, rfl, hB, hC, ?_⟩
        injection hok with h
        exact h.symm

/-- Inversion: a successful audio-pipeline run is a successful text-pipeline
run on the transcription result. -/
theorem process_audio_pipeline_ok_inv (o : Oracles) (file : UploadedFile)
    (lang : String) (r : BackendResponse)
    (hok : (process_audio_pipeline o file lang).1 = Except.ok r) :
    ∃ stt, (process_text_pipeline o stt lang).1 = Except.ok r := by
  have hbody : (process_audio_try_body o file lang).1 = Except.ok r := hok
  unfold process_audio_try_body at hbody
  rcases hA : bhashini_asr o.asrConfig o.asrInfer file.content lang with ⟨res, evs⟩
  rw [hA] at hbody
  cases res with
  | error e => simp at hbody
  | ok stt => exact ⟨Json.asText stt, hbody⟩

/-- Claim C7: for every translate call, on status 200 (the success status of
this endpoint) the returned translated text is exactly the raw response body
with surrounding whitespace trimmed, and on any other status the call fails
with a `TranslationError` (an `HTTPException`) carrying the upstream status
and the response body verbatim in its detail. -/
theorem translate_status_contract (resp : TranslateResponse) :
    (resp.status = 200 → bhashini_translate resp = Except.ok resp.text.trim)
    ∧ (resp.status ≠ 200 → bhashini_translate resp =
        Except.error (PyError.httpException resp.status
          ("Translate failed: " ++ resp.text))) := by
  constructor
  · intro h
    unfold bhashini_translate
    rw [if_neg (by simp [h])]
  · intro h
    unfold bhashini_translate
    rw [if_pos h]

/-- Witness for C7 at two concrete responses, one per branch. -/
theorem translate_status_contract_witness :
    (bhashini_translate { status := 200, text := "hello" } =
      Except.ok ("hello").trim)
    ∧ (bhashini_translate { status := 404, text := "bad" } =
      Except.error (PyError.httpException 404 ("Translate failed: " ++ "bad"))) :=
  ⟨(translate_status_contract { status := 200, text := "hello" }).1 rfl,
   (translate_status_contract { status := 404, text := "bad" }).2 (by decide)⟩

/-- Claim C3: if the forward translation answers a non-success status, the
text pipeline fails with the `TranslationError` carrying that status, and its
trace consists of that single forward translation call — the reverse
translation and the synthesizer are never invoked. -/
theorem forward_translate_failure_short_circuits (o : Oracles)
    (text lang : String)
    (h : (o.translate text lang PIVOT).status ≠ 200) :
    (process_text_pipeline o text lang).1 =
      Except.error (PyError.httpException (o.translate text lang PIVOT).status
        ("Translate failed: " ++ (o.translate text lang PIVOT).text))
    ∧ (process_text_pipeline o text lang).2 =
      [Event.translateCall text lang PIVOT] := by
  have hA : bhashini_translate (o.translate text lang PIVOT) =
      Except.error (PyError.httpException (o.translate text lang PIVOT).status
        ("Translate failed: " ++ (o.translate text lang PIVOT).text)) := by
    unfold bhashini_translate
    rw [if_pos h]
  unfold process_text_pipeline
  rw [hA]
  exact ⟨rfl, rfl⟩

/-- Witness for C3 against an environment whose translation endpoint answers
503. -/
theorem forward_translate_failure_witness :
    (oracleFail.translate "hi" "hi" PIVOT).status ≠ 200
    ∧ ((process_text_pipeline oracleFail "hi" "hi").1 =
        Except.error (PyError.httpException
          (oracleFail.translate "hi" "hi" PIVOT).status
          ("Translate failed: " ++ (oracleFail.translate "hi" "hi" PIVOT).text))
      ∧ (process_text_pipeline oracleFail "hi" "hi").2 =
        [Event.translateCall "hi" "hi" PIVOT]) :=
  ⟨by decide,
   forward_translate_failure_short_circuits oracleFail "hi" "hi" (by decide)⟩

/-- Claim C1: when both translation calls succeed, the text pipeline performs
exactly two translation calls in order — first (text, language, PIVOT), then
(firstResult, PIVOT, language) — and any returned record has `original_text`
equal to the input text, `translated_text` equal to the first call result and
`final_text` equal to the second call result. -/
theorem translate_roundtrip_call_order (o : Oracles) (text lang : String)
    (h1 : (o.translate text lang PIVOT).status = 200)
    (h2 : (o.translate ((o.translate text lang PIVOT).text.trim) PIVOT
      lang).status = 200) :
    translateCalls (process_text_pipeline o text lang).2 =
      [(text, lang, PIVOT),
       ((o.translate text lang PIVOT).text.trim, PIVOT, lang)]
    ∧ ∀ r : BackendResponse,
        (process_text_pipeline o text lang).1 = Except.ok r →
        r.original_text = text
        ∧ r.translated_text = (o.translate text lang PIVOT).text.trim
        ∧ r.final_text = (o.translate ((o.translate text lang PIVOT).text.trim)
            PIVOT lang).text.trim := by
  have hA : bhashini_translate (o.translate text lang PIVOT) =
      Except.ok ((o.translate text lang PIVOT).text.trim) := by
    unfold bhashini_translate
    rw [if_neg (by simp [h1])]
  have hB : bhashini_translate
      (o.translate ((o.translate text lang PIVOT).text.trim) PIVOT lang) =
      Except.ok ((o.translate ((o.translate text lang PIVOT).text.trim)
        PIVOT lang).text.trim) := by
    unfold bhashini_translate
    rw [if_neg (by simp [h2])]
  unfold process_text_pipeline
  rw [hA]
  dsimp only
  rw [hB]
  dsimp only
  cases hC : bhashini_tts (o.tts ((o.translate ((o.translate text lang
      PIVOT).text.trim) PIVOT lang).text.trim) lang) with
  | error e =>
    constructor
    · rfl
    · intro r hr
      simp at hr
  | ok B =>
    constructor
    · rfl
    · intro r hr
      dsimp only at hr
      injection hr with h
      subst h
      exact ⟨rfl, rfl, rfl⟩

/-- Witness for C1 against an all-success environment. -/
theorem translate_roundtrip_call_order_witness :
    (oracleW.translate "hi" "hi" PIVOT).status = 200
    ∧ (oracleW.translate ((oracleW.translate "hi" "hi" PIVOT).text.trim) PIVOT
        "hi").status = 200
    ∧ (translateCalls (process_text_pipeline oracleW "hi" "hi").2 =
        [("hi", "hi", PIVOT),
         ((oracleW.translate "hi" "hi" PIVOT).text.trim, PIVOT, "hi")]
      ∧ ∀ r : BackendResponse,
          (process_text_pipeline oracleW "hi" "hi").1 = Except.ok r →
          r.original_text = "hi"
          ∧ r.translated_text = (oracleW.translate "hi" "hi" PIVOT).text.trim
          ∧ r.final_text = (oracleW.translate ((oracleW.translate "hi" "hi"
              PIVOT).text.trim) PIVOT "hi").text.trim) :=
  ⟨rfl, rfl, translate_roundtrip_call_order oracleW "hi" "hi" rfl rfl⟩

/-- Claim C6: a pipeline run (text or audio entry) either fails with an
error, or returns a record whose four fields are all populated together from
the stage results — `original_text` from the input, `translated_text` and
`final_text` from the two successful translation calls, `audio_base64` from
the successful synthesis call; a successful audio run is a successful text
run on the transcription, so the same holds there. -/
theorem result_fields_all_or_nothing :
    (∀ (o : Oracles) (text lang : String) (r : BackendResponse),
      (process_text_pipeline o text lang).1 = Except.ok r →
      ∃ t1 f1 B,
        bhashini_translate (o.translate text lang PIVOT) = Except.ok t1
        ∧ bhashini_translate (o.translate t1 PIVOT lang) = Except.ok f1
        ∧ bhashini_tts (o.tts f1 lang) = Except.ok B
        ∧ r = { original_text := text, translated_text := t1,
                final_text := f1, audio_base64 := String.mk (b64encode B) })
    ∧ (∀ (o : Oracles) (file : UploadedFile) (lang : String)
        (r : BackendResponse),
      (process_audio_pipeline o file lang).1 = Except.ok r →
      ∃ stt, (process_text_pipeline o stt lang).1 = Except.ok r) := by
  constructor
  · intro o text lang r hok
    rcases process_text_pipeline_ok_inv o text lang r hok with
      ⟨t1, f1, hA, hB, hC, hr⟩
    exact ⟨t1, f1, (o.tts f1 lang).content, hA, hB, hC, hr⟩
  · intro o file lang r hok
    exact process_audio_pipeline_ok_inv o file lang r hok

/-- Witness for C6: both entry points succeed against `oracleW` and produce
the fully-populated `resultW`. -/
theorem result_fields_all_or_nothing_witness :
    ((process_text_pipeline oracleW "hi" "hi").1 = Except.ok resultW
     ∧ ∃ t1 f1 B,
        bhashini_translate (oracleW.translate "hi" "hi" PIVOT) = Except.ok t1
        ∧ bhashini_translate (oracleW.translate t1 PIVOT "hi") = Except.ok f1
        ∧ bhashini_tts (oracleW.tts f1 "hi") = Except.ok B
        ∧ resultW = { original_text := "hi", translated_text := t1,
                      final_text := f1,
                      audio_base64 := String.mk (b64encode B) })
    ∧ ((process_audio_pipeline oracleW fileW "hi").1 = Except.ok resultW
     ∧ ∃ stt, (process_text_pipeline oracleW stt "hi").1 =
        Except.ok resultW) :=
  ⟨⟨rfl, result_fields_all_or_nothing.1 oracleW "hi" "hi" resultW rfl⟩,
   ⟨rfl, result_fields_all_or_nothing.2 oracleW fileW "hi" resultW rfl⟩⟩

/-- Claim C9: on every successful run (either entry point), `audio_base64` is
exactly the base64 encoding of the byte sequence the synthesizer returned for
`final_text`, and base64-decoding `audio_base64` recovers those bytes. -/
theorem audio_base64_roundtrip (o : Oracles) (lang : String)
    (r : BackendResponse)
    (hok : (∃ text, (process_text_pipeline o text lang).1 = Except.ok r) ∨
           (∃ file, (process_audio_pipeline o file lang).1 = Except.ok r))
    (hbytes : ∀ b ∈ (o.tts r.final_text lang).content, b < 256) :
    ∃ B, bhashini_tts (o.tts r.final_text lang) = Except.ok B
      ∧ r.audio_base64 = String.mk (b64encode B)
      ∧ b64decode r.audio_base64.data = some B := by
  have htext : ∃ text, (process_text_pipeline o text lang).1 = Except.ok r := by
    rcases hok with h | ⟨file, h⟩
    · exact h
    · exact process_audio_pipeline_ok_inv o file lang r h
  rcases htext with ⟨text, h⟩
  rcases process_text_pipeline_ok_inv o text lang r h with
    ⟨t1, f1, hA, hB, hC, hr⟩
  subst hr
  dsimp only at hbytes ⊢
  exact ⟨(o.tts f1 lang).content, hC, rfl,
    b64decode_b64encode ((o.tts f1 lang).content) hbytes⟩

/-- Witness for C9 against an all-success environment with byte content
`[104, 105]`. -/
theorem audio_base64_roundtrip_witness :
    ((∃ text, (process_text_pipeline oracleW text "hi").1 =
        Except.ok resultW) ∨
     (∃ file, (process_audio_pipeline oracleW file "hi").1 =
        Except.ok resultW))
    ∧ (∀ b ∈ (oracleW.tts resultW.final_text "hi").content, b < 256)
    ∧ (∃ B, bhashini_tts (oracleW.tts resultW.final_text "hi") = Except.ok B
        ∧ resultW.audio_base64 = String.mk (b64encode B)
        ∧ b64decode resultW.audio_base64.data = some B) := by
  have hb : ∀ b ∈ (oracleW.tts resultW.final_text "hi").content, b < 256 := by
    decide
  exact ⟨Or.inl ⟨"hi", rfl⟩, hb,
    audio_base64_roundtrip oracleW "hi" resultW (Or.inl ⟨"hi", rfl⟩) hb⟩

/-- Claim C2: for every audio request, the trace starts with the creation of
the temporary audio resource — before any transcriber, translator or
synthesizer activity — and ends with its release; the segment in between
contains no lifecycle event, so the resource is created once and released
exactly once on every exit path, success or failure. -/
theorem audio_temp_lifecycle (o : Oracles) (file : UploadedFile)
    (lang : String) :
    ∃ sfx rest,
      (process_audio_pipeline o file lang).2 =
        Event.tempCreate sfx :: (rest ++ [Event.tempRelease])
      ∧ rest.countP isTempEvent = 0 := by
  refine ⟨_, (process_audio_try_body o file lang).2, rfl, ?_⟩
  unfold process_audio_try_body
  rcases hA : bhashini_asr o.asrConfig o.asrInfer file.content lang with
    ⟨res, evs⟩
  have hasr := bhashini_asr_trace_no_temp o.asrConfig o.asrInfer
    file.content lang
  rw [hA] at hasr
  cases res with
  | error e => exact hasr
  | ok stt =>
    dsimp only
    rw [List.countP_append]
    rw [process_text_trace_no_temp]
    dsimp only at hasr
    rw [hasr]

/-- Claim C10: the cleanup step of the audio entry point
(`unlink` with `missing_ok=True`, as the source calls it) never raises, in
particular not when the file is already absent; consequently the audio
outcome of the pipeline is always exactly the outcome of its try body — cleanup
never turns success into failure and never masks a stage error. -/
theorem cleanup_never_masks :
    (∀ fileExists : Bool, unlink fileExists true = Except.ok ())
    ∧ (∀ (o : Oracles) (file : UploadedFile) (lang : String),
        (process_audio_pipeline o file lang).1 =
          (process_audio_try_body o file lang).1) := by
  constructor
  · intro fileExists
    cases fileExists <;> rfl
  · intro o file lang
    rfl

/-- Claim C4 (divergence witness): on a discovery response that is well-formed
except for the missing `serviceId`, `bhashini_asr` fails with a raw uncaught
`KeyError` — the `keyError` constructor, not the `httpException` the code uses
for its structured failures — so the transcriber crashes generically instead
of failing with a typed resolution/parse error. -/
theorem missing_serviceId_uncaught_keyerror :
    (bhashini_asr cfgMissingServiceId inferStrOutput [1] "hi").1 =
      Except.error (PyError.keyError "serviceId") := rfl

/-- Counterexample to C5 as stated: with the object-with-`source` provider
variant, the transcriber returns the JSON object itself, not the scalar
transcript string it carries. -/
theorem asr_object_output_not_extracted :
    (bhashini_asr cfgResolved inferObjOutput [1] "hi").1 =
      Except.ok (Json.obj [("source", Json.str "hello")])
    ∧ Json.isScalarStr (Json.obj [("source", Json.str "hello")]) = false :=
  ⟨rfl, rfl⟩

/-- Claim C5 as amended: on a successful inference response the transcriber
returns `pipelineResponse[0].output` verbatim, whatever its shape (it does
not normalize the object/array variants to a scalar string), and when the
expected output path is missing it fails with `HTTPException(500)` whose
detail reports the parsing failure — it never silently returns empty text. -/
theorem asr_output_returned_verbatim (cfg : JsonResponse)
    (infer : Json → Json → Json → AsrPayload → JsonResponse)
    (bytes : List Nat) (lang : String) (url svc kn kv : Json)
    (hst : httpSuccess cfg.status = true)
    (hurl : Json.getKey cfg.body "pipelineInferenceAPIEndPoint" >>=
      (fun j => j.getKey "callbackUrl") = Except.ok url)
    (hsvc : Json.getKey cfg.body "pipelineInferenceAPIEndPoint" >>=
      (fun j => j.getKey "serviceId") = Except.ok svc)
    (hkn : Json.getKey cfg.body "pipelineInferenceAPIEndPoint" >>=
      (fun j => j.getKey "inferenceApiKey" >>= (fun k => k.getKey "name")) =
        Except.ok kn)
    (hkv : Json.getKey cfg.body "pipelineInferenceAPIEndPoint" >>=
      (fun j => j.getKey "inferenceApiKey" >>= (fun k => k.getKey "value")) =
        Except.ok kv)
    (hresp : httpSuccess (infer url kn kv (asr_inference_payload lang svc
      (String.mk (b64encode bytes)))).status = true) :
    (bhashini_asr cfg infer bytes lang).1 =
      match asrParseOutput (infer url kn kv (asr_inference_payload lang svc
          (String.mk (b64encode bytes)))).body with
      | Except.ok out => Except.ok out
      | Except.error e =>
        Except.error (PyError.httpException 500
          ("ASR parse error: " ++ pyErrStr e)) := by
  unfold bhashini_asr
  rw [hst, if_pos rfl, hurl, hsvc, hkn, hkv]
  dsimp only
  rw [hresp, if_pos rfl]
  cases hE : asrParseOutput (infer url kn kv (asr_inference_payload lang svc
      (String.mk (b64encode bytes)))).body with
  | error e => rfl
  | ok out => rfl

/-- Witness for C5 at a fully-resolved discovery response, once with the
object-shaped output (returned verbatim) and once with a body missing the
output path (structured 500 parse failure). -/
theorem asr_output_returned_verbatim_witness :
    httpSuccess cfgResolved.status = true
    ∧ ((bhashini_asr cfgResolved inferObjOutput [1] "hi").1 =
      match asrParseOutput (inferObjOutput (Json.str "https://cb")
          (Json.str "key") (Json.str "val") (asr_inference_payload "hi"
          (Json.str "svc") (String.mk (b64encode [1])))).body with
      | Except.ok out => Except.ok out
      | Except.error e =>
        Except.error (PyError.httpException 500
          ("ASR parse error: " ++ pyErrStr e)))
    ∧ ((bhashini_asr cfgResolved inferMissingOutput [1] "hi").1 =
      match asrParseOutput (inferMissingOutput (Json.str "https://cb")
          (Json.str "key") (Json.str "val") (asr_inference_payload "hi"
          (Json.str "svc") (String.mk (b64encode [1])))).body with
      | Except.ok out => Except.ok out
      | Except.error e =>
        Except.error (PyError.httpException 500
          ("ASR parse error: " ++ pyErrStr e))) :=
  ⟨rfl,
   asr_output_returned_verbatim cfgResolved inferObjOutput [1] "hi"
     (Json.str "https://cb") (Json.str "svc") (Json.str "key")
     (Json.str "val") rfl rfl rfl rfl rfl rfl,
   asr_output_returned_verbatim cfgResolved inferMissingOutput [1] "hi"
     (Json.str "https://cb") (Json.str "svc") (Json.str "key")
     (Json.str "val") rfl rfl rfl rfl rfl rfl⟩

/-- The transcriber trace is either the lone discovery call, or the discovery
call followed by one inference call whose payload was built by
`asr_inference_payload` from the request language, the resolved service and
the base64-encoded audio. -/
theorem bhashini_asr_trace_shape (cfg : JsonResponse)
    (infer : Json → Json → Json → AsrPayload → JsonResponse)
    (bytes : List Nat) (lang : String) :
    (bhashini_asr cfg infer bytes lang).2 = [Event.asrConfigCall]
    ∨ ∃ svc, (bhashini_asr cfg infer bytes lang).2 =
        [Event.asrConfigCall, Event.asrInferCall
          (asr_inference_payload lang svc (String.mk (b64encode bytes)))] := by
  unfold bhashini_asr
  repeat' (first | exact Or.inl rfl | exact Or.inr ⟨_, rfl⟩ | split | dsimp only)

/-- Claim C8: the inference request config always carries the literal
protocol constants `samplingRate = 16000` and `audioFormat = "wav"`,
independent of the language, the resolved service and the audio bytes; and
every inference call the transcriber actually issues carries them. -/
theorem asr_payload_protocol_constants :
    (∀ (lang : String) (svcId : Json) (audio_b64 : String),
      (asr_inference_payload lang svcId audio_b64).samplingRate = 16000
      ∧ (asr_inference_payload lang svcId audio_b64).audioFormat = "wav")
    ∧ (∀ (cfg : JsonResponse)
        (infer : Json → Json → Json → AsrPayload → JsonResponse)
        (bytes : List Nat) (lang : String) (p : AsrPayload),
        Event.asrInferCall p ∈ (bhashini_asr cfg infer bytes lang).2 →
        p.samplingRate = 16000 ∧ p.audioFormat = "wav") := by
  constructor
  · intro lang svcId audio_b64
    exact ⟨rfl, rfl⟩
  · intro cfg infer bytes lang p hp
    rcases bhashini_asr_trace_shape cfg infer bytes lang with h | ⟨svc, h⟩
    · rw [h] at hp
      simp at hp
    · rw [h] at hp
      simp at hp
      subst hp
      exact ⟨rfl, rfl⟩

/-- Witness for C8: a concrete run in which the inference call happens. -/
theorem asr_payload_protocol_constants_witness :
    Event.asrInferCall (asr_inference_payload "hi" (Json.str "svc")
      (String.mk (b64encode [1])))
      ∈ (bhashini_asr cfgResolved inferStrOutput [1] "hi").2
    ∧ ((asr_inference_payload "hi" (Json.str "svc")
        (String.mk (b64encode [1]))).samplingRate = 16000
      ∧ (asr_inference_payload "hi" (Json.str "svc")
        (String.mk (b64encode [1]))).audioFormat = "wav") := by
  have hm : Event.asrInferCall (asr_inference_payload "hi" (Json.str "svc")
      (String.mk (b64encode [1])))
      ∈ (bhashini_asr cfgResolved inferStrOutput [1] "hi").2 := by
    have hl : (bhashini_asr cfgResolved inferStrOutput [1] "hi").2 =
        [Event.asrConfigCall, Event.asrInferCall (asr_inference_payload "hi"
          (Json.str "svc") (String.mk (b64encode [1])))] := rfl
    rw [hl]
    exact List.mem_cons_of_mem _ (List.mem_cons_self _ _)
  exact ⟨hm, asr_payload_protocol_constants.2 cfgResolved inferStrOutput
    [1] "hi" (asr_inference_payload "hi" (Json.str "svc")
    (String.mk (b64encode [1]))) hm⟩

end Bhashini
